import Mathlib

/-!
# Verification of the Chart Wheel Layout Engine

A shallow embedding, in Lean 4, of the `ChartWheel` component
(`src/unnamed/part_000` of the repository): the layout engine that turns a
loosely-typed chart record into positioned wheel primitives.

Numbers are modelled exactly: JavaScript numeric values carried by the input
record become rationals (`ℚ`), and the JS truncated remainder `%` is modelled
by `jsMod`.  The angular helpers (`wrap360`, `jsMod`, `jsTrunc`) are defined
generically over a linear ordered field with a floor so that the same
definitions serve both the executable pipeline (at `ℚ`) and the real-valued
statements (at `ℝ`).

The trigonometric polar-to-Cartesian conversion (`polar` in the source) is
kept as a separate real-valued interpretation `polarXY` of the purely
rational polar data `(radius, angleDeg)` that the pipeline computes; every
drawable record in the embedding stores its polar data, and its Cartesian
coordinates are `polarXY` of that data, exactly as the source computes them.
-/

namespace ChartWheel

/-- JavaScript truncated integer part (`Math.trunc`, the rounding used by the
JS `%` operator): floor for nonnegative arguments, ceiling for negative
ones. -/
def jsTrunc {α : Type} [LinearOrderedField α] [FloorRing α] (q : α) : ℤ :=
  if q < 0 then ⌈q⌉ else ⌊q⌋

/-- The JavaScript remainder operator `d % m` on finite numbers:
`d - m * trunc (d / m)`. -/
def jsMod {α : Type} [LinearOrderedField α] [FloorRing α] (d m : α) : α :=
  d - m * (jsTrunc (d / m) : α)

/-- Source `wrap360` (part_000 lines 39-42):
`const x = d % 360; return x < 0 ? x + 360 : x;`. -/
def wrap360 {α : Type} [LinearOrderedField α] [FloorRing α] (d : α) : α :=
  if jsMod d 360 < 0 then jsMod d 360 + 360 else jsMod d 360

/-! ## The loosely-typed input record

The component receives `chart: any`.  We model the JSON-compatible values
that can sit in the fields the component actually reads.  An absent field
(or `undefined`) is `Option.none`; an explicit JSON `null` is `JVal.jnull`.
NaN never arises in the rational model (JSON cannot carry it), so a numeric
value is always a finite `ℚ`. -/

/-- A JSON-compatible JavaScript scalar value, as far as the component
inspects them: numbers, strings, booleans and `null`.  (Array values occur
only in the cusps fields and the aspect lists, and are modelled by the
dedicated types below.) -/
inductive JVal : Type where
  | num (q : ℚ)
  | str (s : String)
  | boolean (b : Bool)
  | jnull
deriving DecidableEq, Repr

/-- A value sitting at `chart.houses.cusps` / `chart.houses.house_cusps`:
either an array (of scalar elements) or a non-array scalar, which the
source's `Array.isArray` test rejects. -/
inductive CuspsVal : Type where
  | arr (elems : List JVal)
  | prim (v : JVal)
deriving DecidableEq, Repr

/-- JS nullish test: `undefined` (absent) or `null`. -/
def isNullish : Option JVal → Bool
  | none => true
  | some JVal.jnull => true
  | some _ => false

/-- The JS nullish-coalescing operator `a ?? b`. -/
def jsCoalesce (a b : Option JVal) : Option JVal :=
  if isNullish a then b else a

/-- JS `Number(v)` restricted to the values above, composed with the
`Number.isFinite` test of the source: `none` means NaN (not finite).
Numbers map to themselves, `null` to `0`, booleans to `0`/`1`; strings are
modelled for plain digit sequences only (other strings, on which the source
would attempt full JS numeric parsing, map to NaN — the claims below never
depend on numeric string parsing), and arrays to NaN. -/
def jsToFiniteNumber : JVal → Option ℚ
  | JVal.num q => some q
  | JVal.jnull => some 0
  | JVal.boolean b => some (if b then 1 else 0)
  | JVal.str s => (s.toNat?).map (fun n => (n : ℚ))

/-- A body record as read by the component (an entry of `chart.planets` or
`chart.points`): the fields `lon`, `available` and `deg_in_sign` are the
only ones inspected.  Entries that are not objects are skipped by every
consumer in the source (`!d` guard, `typeof lon` guard) and are therefore
not modelled. -/
structure Body : Type where
  lon : Option JVal
  available : Option JVal
  deg_in_sign : Option JVal
deriving DecidableEq, Repr

/-- An entry of `aspects.planet_aspects` / `aspects.other_aspects`
(`AspectRow` in the source).  `p1`, `p2` and `aspect` are used as strings
throughout (map keys, sort keys, style names); fields that are absent or
otherwise falsy are modelled as the empty string, which the source skips
exactly as the model does. -/
structure AspectRow : Type where
  p1 : String
  p2 : String
  aspect : String
  orb : Option JVal
deriving DecidableEq, Repr

/-- The input record, restricted to the paths the component reads:
`chart.houses.ascendant`, `chart.houses.cusps`, `chart.houses.house_cusps`,
`chart.planets`, `chart.points`, `chart.aspects.planet_aspects`,
`chart.aspects.other_aspects` and `chart.name`.  A `none` models any absent
intermediate object as well (e.g. a missing `chart.houses` makes all three
`houses_*` fields `none`). -/
structure Chart : Type where
  houses_ascendant : Option JVal
  houses_cusps : Option CuspsVal
  houses_house_cusps : Option CuspsVal
  planets : List (String × Body)
  points : List (String × Body)
  planet_aspects : Option (List AspectRow)
  other_aspects : Option (List AspectRow)
  nameField : Option JVal
deriving DecidableEq, Repr

/-- First-match lookup in an object modelled as an association list (JS
object keys are unique, so first-match agrees with the object lookup). -/
def jsGet {β : Type} (m : List (String × β)) (k : String) : Option β :=
  (m.find? (fun e => e.1 = k)).map Prod.snd

/-- `chart?.points?.<key>?.lon`. -/
def pointLon (c : Chart) (key : String) : Option JVal :=
  (jsGet c.points key).bind Body.lon

/-- Source lines 88-92: the raw ascendant value
`chart?.houses?.ascendant ?? chart?.points?.Asc?.lon ?? chart?.points?.ASC?.lon ?? null`. -/
def ascRaw (c : Chart) : Option JVal :=
  jsCoalesce c.houses_ascendant
    (jsCoalesce (pointLon c "Asc")
      (jsCoalesce (pointLon c "ASC") (some JVal.jnull)))

/-- Source line 105: `typeof asc === "number" ? wrap360(asc) : null`. -/
def ascDeg (c : Chart) : Option ℚ :=
  match ascRaw c with
  | some (JVal.num q) => some (wrap360 q)
  | _ => none

/-- Source lines 115-118: the wheel rotation
`ascDeg == null ? 0 : wrap360(270 - ascDeg)`. -/
def rot (c : Chart) : ℚ :=
  match ascDeg c with
  | none => 0
  | some a => wrap360 (270 - a)

/-- Concrete instantiation of `rotation_consistency`: a chart whose
`houses.ascendant` is 100. -/
def C4chart : Chart :=
  { houses_ascendant := some (JVal.num 100)
    houses_cusps := none
    houses_house_cusps := none
    planets := []
    points := []
    planet_aspects := none
    other_aspects := none
    nameField := none }

/-! ## C2: which ascendant candidate wins -/

/-- `typeof v === "number" ? wrap360(v) : null`, applied to an optional
field. -/
def wrapIfNumber : Option JVal → Option ℚ
  | some (JVal.num q) => some (wrap360 q)
  | _ => none

/-- The ascendant extraction as the spec's words describe it (refinement
candidate, not translated from the source): try the three candidate fields
in priority order and take the **first numeric** value, wrapped. -/
def ascDegSpecFirstNumeric (c : Chart) : Option ℚ :=
  match c.houses_ascendant with
  | some (JVal.num q) => some (wrap360 q)
  | _ =>
    match pointLon c "Asc" with
    | some (JVal.num q) => some (wrap360 q)
    | _ =>
      match pointLon c "ASC" with
      | some (JVal.num q) => some (wrap360 q)
      | _ => none

/-- A chart whose `houses.ascendant` is a defined but non-numeric value
while `points.Asc.lon` is numeric. -/
def C2chart : Chart :=
  { houses_ascendant := some (JVal.str "Libra rising")
    houses_cusps := none
    houses_house_cusps := none
    planets := []
    points := [("Asc", { lon := some (JVal.num 100), available := none,
                         deg_in_sign := none })]
    planet_aspects := none
    other_aspects := none
    nameField := none }

/-- A chart with no `houses.ascendant` and a numeric `points.Asc.lon`. -/
def C2wchart : Chart :=
  { houses_ascendant := none
    houses_cusps := none
    houses_house_cusps := none
    planets := []
    points := [("Asc", { lon := some (JVal.num 50), available := none,
                         deg_in_sign := none })]
    planet_aspects := none
    other_aspects := none
    nameField := none }

/-! ## Layout constants (source lines 120-133 and 171-173, 263) -/

def size : ℚ := 620
def cx : ℚ := size / 2
def cy : ℚ := size / 2
def R_OUT : ℚ := 292
def R_SIGN_IN : ℚ := 262
def R_HOUSE : ℚ := 205
def R_PLANET : ℚ := 245
def R_ASPECT : ℚ := 165
def R_CENTER : ℚ := 125
def SIGN_RING_STROKE : ℚ := 10
def HOUSE_END_R : ℚ := R_SIGN_IN + SIGN_RING_STROKE / 2 - 1
def R_ASPECT_DRAW : ℚ := min R_ASPECT (R_CENTER - 10)

/-- A point in the polar data the pipeline computes before the
trigonometric conversion: a radius and a wheel angle in degrees.  The
source's `polar(cx, cy, r, deg)` call is the real-valued interpretation
`polarXY` applied to this record (defined further below). -/
structure PolarPt : Type where
  r : ℚ
  deg : ℚ
deriving DecidableEq, Repr

/-! ## House cusps and house lines -/

/-- JS nullish test for the cusps position (`undefined`/absent or `null`;
an array is never nullish). -/
def isNullishCusps : Option CuspsVal → Bool
  | none => true
  | some (CuspsVal.prim JVal.jnull) => true
  | some _ => false

/-- Source line 94: `chart?.houses?.cusps ?? chart?.houses?.house_cusps ?? []`. -/
def cuspsRaw (c : Chart) : CuspsVal :=
  if isNullishCusps c.houses_cusps then
    if isNullishCusps c.houses_house_cusps then CuspsVal.arr []
    else (c.houses_house_cusps).getD (CuspsVal.arr [])
  else (c.houses_cusps).getD (CuspsVal.arr [])

/-- Source lines 106-108: keep the value only if it is an array, coerce each
element with `Number` and keep the finite ones
(`cuspsArr.map(Number).filter(Number.isFinite)`). -/
def cusps (c : Chart) : List ℚ :=
  match cuspsRaw c with
  | CuspsVal.arr xs => xs.filterMap jsToFiniteNumber
  | CuspsVal.prim _ => []

/-- A house line: 1-based house index and the radial segment, in polar
data, from `R_CENTER - 6` to `HOUSE_END_R` at angle `wrap360(cusp + rot)`
(source lines 193-198). -/
structure HouseLine : Type where
  idx : ℕ
  deg : ℚ
  p1 : PolarPt
  p2 : PolarPt
deriving DecidableEq, Repr

/-- Source lines 193-198: `(cusps?.length === 12 ? cusps : []).map(...)`. -/
def houseLines (c : Chart) : List HouseLine :=
  ((if (cusps c).length = 12 then cusps c else []).enum).map
    (fun e =>
      { idx := e.1 + 1
        deg := wrap360 (e.2 + rot c)
        p1 := ⟨R_CENTER - 6, wrap360 (e.2 + rot c)⟩
        p2 := ⟨HOUSE_END_R, wrap360 (e.2 + rot c)⟩ })

/-- The raw cusps array of the C3 counterexample: 13 elements, of which
exactly 12 are numeric (the last is a non-numeric string). -/
def C3cuspsArr : List JVal :=
  [JVal.num 0, JVal.num 30, JVal.num 60, JVal.num 90, JVal.num 120,
   JVal.num 150, JVal.num 180, JVal.num 210, JVal.num 240, JVal.num 270,
   JVal.num 300, JVal.num 330, JVal.str "oops"]

def C3chart : Chart :=
  { houses_ascendant := none
    houses_cusps := some (CuspsVal.arr C3cuspsArr)
    houses_house_cusps := none
    planets := []
    points := []
    planet_aspects := none
    other_aspects := none
    nameField := none }

/-! ## Body placement (source lines 9-37, 53-67, 99-102, 211-254) -/

/-- Source lines 9-12. -/
def SIGNS : List String :=
  ["Aries", "Taurus", "Gemini", "Cancer", "Leo", "Virgo",
   "Libra", "Scorpio", "Sagittarius", "Capricorn", "Aquarius", "Pisces"]

/-- Source lines 19-23: the fixed canonical iteration order of bodies. -/
def BODY_ORDER : List String :=
  ["Sun", "Moon", "Mercury", "Venus", "Mars", "Jupiter", "Saturn", "Uranus",
   "Neptune", "Pluto", "TrueNode", "Lilith", "Chiron", "Vertex", "Fortune",
   "Asc", "MC", "DSC", "IC"]

/-- Source lines 25-37: `BODY_GLYPHS[name]`, `none` when the name has no
glyph. -/
def bodyGlyphTable (name : String) : Option String :=
  if name = "Sun" then some "☉" else if name = "Moon" then some "☽"
  else if name = "Mercury" then some "☿" else if name = "Venus" then some "♀"
  else if name = "Mars" then some "♂" else if name = "Jupiter" then some "♃"
  else if name = "Saturn" then some "♄" else if name = "Uranus" then some "♅"
  else if name = "Neptune" then some "♆" else if name = "Pluto" then some "♇"
  else if name = "TrueNode" then some "☊" else if name = "Lilith" then some "⚸"
  else if name = "Chiron" then some "⚷" else if name = "Vertex" then some "Vx"
  else if name = "Fortune" then some "⊗" else if name = "Asc" then some "ASC"
  else if name = "MC" then some "MC" else if name = "DSC" then some "DSC"
  else if name = "IC" then some "IC" else none

/-- Source line 237: `BODY_GLYPHS[name] || name.slice(0, 2)`. -/
def bodyGlyph (name : String) : String :=
  match bodyGlyphTable name with
  | some g => g
  | none => name.take 2

/-- JS `Math.round`: round half toward positive infinity. -/
def jsRound (q : ℚ) : ℤ := ⌊q + 1 / 2⌋

/-- `String(n).padStart(2, "0")`. -/
def pad2 (n : ℤ) : String :=
  let s := toString n
  if s.length < 2 then "0" ++ s else s

/-- Source lines 53-60: format a degree value as integer degrees plus
zero-padded arc-minutes, with carry when the minutes round to 60. -/
def degToDegMin (deg : ℚ) : String :=
  let d : ℤ := ⌊deg⌋
  let m : ℤ := jsRound ((deg - (d : ℚ)) * 60)
  let mm : ℤ := if m = 60 then 0 else m
  let dd : ℤ := if m = 60 then d + 1 else d
  toString dd ++ "°" ++ pad2 mm ++ "′"

/-- Source lines 62-67: split a longitude into its zodiac sign and the
degrees into that sign. -/
def lonToSignDeg (lon : ℚ) : String × ℚ :=
  let L := wrap360 lon
  let signIndex : ℤ := ⌊L / 30⌋
  (SIGNS.getD signIndex.toNat "", L - (signIndex : ℚ) * 30)

/-- Source lines 99-102, read through a key lookup: the merge
`{...planetsObj}` overlaid by `{...pointsObj[k], available: true}` for every
key of the points object means that looking up `name` in the merged object
yields the points entry (with `available` forced to `true`) when `name` is a
points key, and the planets entry otherwise. -/
def mergedGet (c : Chart) (name : String) : Option Body :=
  match jsGet c.points name with
  | some b => some { b with available := some (JVal.boolean true) }
  | none => jsGet c.planets name

/-- A placed body: the source record `{name, lon, x, y, label, degMin}`
(lines 241-248) with the Cartesian pair `(x, y)` kept as its polar data
`(r, deg)`; `x`/`y` are `polarXY` of that data (defined below), exactly as
the source computes them via `polar(cx, cy, r, deg)`. -/
structure PPoint : Type where
  name : String
  lon : ℚ
  r : ℚ
  deg : ℚ
  label : String
  degMin : String
deriving DecidableEq, Repr

/-- Source line 239: `typeof d.deg_in_sign === "number" ? d.deg_in_sign :
lonToSignDeg(lon).degInSign`. -/
def degInSignOf (d : Body) (lon : ℚ) : ℚ :=
  match d.deg_in_sign with
  | some (JVal.num q) => q
  | _ => (lonToSignDeg lon).2

/-- The body-placement loop of source lines 223-251, as a recursion over
the remaining names with the `placed` counter threaded through. -/
def planetPointsAux (c : Chart) : List String → ℕ → List PPoint
  | [], _ => []
  | name :: rest, placed =>
    match mergedGet c name with
    | none => planetPointsAux c rest placed
    | some d =>
      if d.available = some (JVal.boolean false) then planetPointsAux c rest placed
      else
        match d.lon with
        | some (JVal.num lon) =>
          { name := name
            lon := lon
            r := R_PLANET - ((placed % 3 : ℕ) : ℚ) * 12
            deg := wrap360 (lon + rot c)
            label := bodyGlyph name
            degMin := degToDegMin (degInSignOf d lon) } ::
          planetPointsAux c rest (placed + 1)
        | _ => planetPointsAux c rest placed

/-- Source lines 211-254: iterate `BODY_ORDER` starting from `placed = 0`. -/
def planetPoints (c : Chart) : List PPoint :=
  planetPointsAux c BODY_ORDER 0

/-- A chart with four visible bodies (Sun, Moon, Mercury, Venus) and no
ascendant. -/
def C5chart : Chart :=
  { houses_ascendant := none
    houses_cusps := none
    houses_house_cusps := none
    planets :=
      [("Sun", { lon := some (JVal.num 10), available := none, deg_in_sign := none }),
       ("Moon", { lon := some (JVal.num 40), available := none, deg_in_sign := none }),
       ("Mercury", { lon := some (JVal.num 70), available := none, deg_in_sign := none }),
       ("Venus", { lon := some (JVal.num 100), available := none, deg_in_sign := none })]
    points := []
    planet_aspects := none
    other_aspects := none
    nameField := none }

/-- The 4th (index 3) placed body of `C5chart`. -/
def C5p3 : PPoint :=
  { name := "Venus", lon := 100, r := 245, deg := 100, label := "♀",
    degMin := "10°00′" }

/-! ## Aspect line resolver (source lines 69-84, 256-316) -/

/-- The visual style of an aspect chord. -/
structure AspectStyle : Type where
  stroke : String
  width : ℚ
  opacity : ℚ
deriving DecidableEq, Repr

/-- Source lines 76-84: lowercase the aspect type, then harmonious
(`trine`/`sextile`), challenging (`square`/`opposition`) or neutral. -/
def aspectStyle (aspect : String) : AspectStyle :=
  let a := aspect.toLower
  let harmonious : Bool := a = "trine" ∨ a = "sextile"
  let challenging : Bool := a = "square" ∨ a = "opposition"
  if harmonious then { stroke := "#ff86b8", width := 2.8, opacity := 0.87 }
  else if challenging then { stroke := "#9f7cff", width := 2.8, opacity := 0.87 }
  else { stroke := "#d8c8ff", width := 2.4, opacity := 0.55 }

/-- An emitted aspect chord.  The source record (lines 303-310) stores the
Cartesian endpoints `x1,y1,x2,y2 = polar(cx, cy, R_ASPECT_DRAW, d1/d2)`;
here the angles `d1`, `d2` are kept (the Cartesian pair is `ALine.xy1` /
`ALine.xy2` below) together with the body names `p1`, `p2` from which the
source computed the endpoints (they are in scope at the push site and
recorded in `key`). -/
structure ALine : Type where
  key : String
  p1 : String
  p2 : String
  d1 : ℚ
  d2 : ℚ
  stroke : String
  width : ℚ
  opacity : ℚ
deriving DecidableEq, Repr

/-- Source lines 256-260: the by-name map over the placed points (names
are distinct, one per `BODY_ORDER` entry, so first-match lookup agrees
with the `Map`). -/
def pointByName (pts : List PPoint) (n : String) : Option PPoint :=
  pts.find? (fun p => p.name = n)

def maxOrb : ℚ := 6.0
def maxLines : ℕ := 30

/-- Source line 283: `typeof a.orb === "number" ? a.orb : 999`. -/
def orbOf (a : AspectRow) : ℚ :=
  match a.orb with
  | some (JVal.num q) => q
  | _ => 999

/-- Source line 286: `[a.p1, a.p2].sort().join("|") + "|" + a.aspect`
(a two-element JS sort is an ordered swap; string order is lexicographic on
code points, which agrees with JS code-unit order on the names involved). -/
def keyOf (a : AspectRow) : String :=
  (if a.p1 ≤ a.p2 then a.p1 ++ "|" ++ a.p2 else a.p2 ++ "|" ++ a.p1)
    ++ "|" ++ a.aspect

/-- The chord pushed at source lines 303-310 for a resolved aspect. -/
def mkALine (a : AspectRow) (q1 q2 : PPoint) (rotq : ℚ) : ALine :=
  { key := keyOf a
    p1 := a.p1
    p2 := a.p2
    d1 := wrap360 (q1.lon + rotq)
    d2 := wrap360 (q2.lon + rotq)
    stroke := (aspectStyle a.aspect).stroke
    width := (aspectStyle a.aspect).width
    opacity := (aspectStyle a.aspect).opacity }

/-- The aspect loop of source lines 281-313: truthiness guard, orb filter,
dedup (`seen` gains the key *before* endpoint resolution), endpoint
resolution, emission, and the hard cap (`break` once 30 chords have been
pushed). -/
def aspAux (pts : List PPoint) (rotq : ℚ) :
    List AspectRow → List String → List ALine → List ALine
  | [], _, out => out
  | a :: rest, seen, out =>
    if a.p1 = "" ∨ a.p2 = "" ∨ a.aspect = "" then aspAux pts rotq rest seen out
    else if maxOrb < orbOf a then aspAux pts rotq rest seen out
    else if keyOf a ∈ seen then aspAux pts rotq rest seen out
    else
      match pointByName pts a.p1, pointByName pts a.p2 with
      | some q1, some q2 =>
        let out' := out ++ [mkALine a q1 q2 rotq]
        if maxLines ≤ out'.length then out'
        else aspAux pts rotq rest (keyOf a :: seen) out'
      | _, _ => aspAux pts rotq rest (keyOf a :: seen) out

/-- Source lines 275-277: each list contributes only if it is an array;
primary (`planet_aspects`) before secondary (`other_aspects`). -/
def mergedAspects (c : Chart) : List AspectRow :=
  (c.planet_aspects.getD []) ++ (c.other_aspects.getD [])

/-- Source lines 265-316. -/
def aspectLines (c : Chart) : List ALine :=
  aspAux (planetPoints c) (rot c) (mergedAspects c) [] []

/-- An aspect row with orb exactly 6.0. -/
def C6row : AspectRow :=
  { p1 := "Sun", p2 := "Moon", aspect := "square", orb := some (JVal.num 6) }

/-- An aspect row with orb 6.1, just above the threshold. -/
def C6rowHigh : AspectRow :=
  { p1 := "Sun", p2 := "Moon", aspect := "square", orb := some (JVal.num 6.1) }

/-- The Sun as placed by `C5chart`. -/
def C6sun : PPoint :=
  { name := "Sun", lon := 10, r := 245, deg := 10, label := "☉",
    degMin := "10°00′" }

/-- The Moon as placed by `C5chart`. -/
def C6moon : PPoint :=
  { name := "Moon", lon := 40, r := 245 - 12, deg := 40, label := "☽",
    degMin := "10°00′" }

/-- A chart whose primary aspect list holds `{Sun, Moon, trine, orb 2}` and
whose secondary list holds the same unordered relationship
`{Moon, Sun, trine, orb 3}`. -/
def C7chart : Chart :=
  { houses_ascendant := none
    houses_cusps := none
    houses_house_cusps := none
    planets :=
      [("Sun", { lon := some (JVal.num 10), available := none, deg_in_sign := none }),
       ("Moon", { lon := some (JVal.num 40), available := none, deg_in_sign := none })]
    points := []
    planet_aspects := some [{ p1 := "Sun", p2 := "Moon", aspect := "trine",
                              orb := some (JVal.num 2) }]
    other_aspects := some [{ p1 := "Moon", p2 := "Sun", aspect := "trine",
                             orb := some (JVal.num 3) }]
    nameField := none }

/-- A chord is *resolved* relative to placed points and a rotation when
both of its names look up successfully and its two draw angles are the
wrapped rotated longitudes of the looked-up points. -/
def Resolved (pts : List PPoint) (rotq : ℚ) (al : ALine) : Prop :=
  (pointByName pts al.p1).map (fun p => wrap360 (p.lon + rotq)) = some al.d1 ∧
  (pointByName pts al.p2).map (fun p => wrap360 (p.lon + rotq)) = some al.d2

/-- Mercury as placed by `C5chart`. -/
def C5merc : PPoint :=
  { name := "Mercury", lon := 70, r := 245 - 2 * 12, deg := 70, label := "☿",
    degMin := "10°00′" }

/-- The single chord emitted for `C7chart`. -/
def C7line : ALine :=
  { key := "Moon|Sun|trine", p1 := "Sun", p2 := "Moon", d1 := 10, d2 := 40,
    stroke := "#ff86b8", width := 2.8, opacity := 0.87 }

/-! ## The trigonometric conversion (source lines 44-51) -/

/-- Source lines 44-46: `(astroDeg - 90) * (Math.PI / 180)`. -/
noncomputable def astroDegToSvgRad (deg : ℚ) : ℝ :=
  ((deg : ℝ) - 90) * (Real.pi / 180)

/-- Source lines 48-51: `polar(cx, cy, r, astroDeg)` with the fixed canvas
center. -/
noncomputable def polarXY (r deg : ℚ) : ℝ × ℝ :=
  ((cx : ℝ) + (r : ℝ) * Real.cos (astroDegToSvgRad deg),
   (cy : ℝ) + (r : ℝ) * Real.sin (astroDegToSvgRad deg))

/-- The Cartesian anchor of a placed body: source line 235,
`polar(cx, cy, r, deg)`. -/
noncomputable def PPoint.xy (p : PPoint) : ℝ × ℝ := polarXY p.r p.deg

/-- The Cartesian first endpoint of a chord: source line 298,
`polar(cx, cy, R_ASPECT_DRAW, d1)`. -/
noncomputable def ALine.xy1 (al : ALine) : ℝ × ℝ := polarXY R_ASPECT_DRAW al.d1

/-- The Cartesian second endpoint of a chord: source line 299. -/
noncomputable def ALine.xy2 (al : ALine) : ℝ × ℝ := polarXY R_ASPECT_DRAW al.d2

/-- The end-to-end scenario chart of the spec, with no ascendant: Sun at
10°, Moon at 100°, one square aspect of orb 4 between them. -/
def C1chart : Chart :=
  { houses_ascendant := none
    houses_cusps := none
    houses_house_cusps := none
    planets :=
      [("Sun", { lon := some (JVal.num 10), available := none, deg_in_sign := none }),
       ("Moon", { lon := some (JVal.num 100), available := none, deg_in_sign := none })]
    points := []
    planet_aspects := some [{ p1 := "Sun", p2 := "Moon", aspect := "square",
                              orb := some (JVal.num 4) }]
    other_aspects := none
    nameField := none }

/-- The single chord emitted for `C1chart`. -/
def C1line : ALine :=
  { key := "Moon|Sun|square", p1 := "Sun", p2 := "Moon", d1 := 10, d2 := 100,
    stroke := "#9f7cff", width := 2.8, opacity := 0.87 }

/-! ## The remaining scene pieces and the full engine output (for C9) -/

/-- Source lines 14-17: `SIGN_GLYPHS[sign]`. -/
def signGlyphTable (sign : String) : Option String :=
  if sign = "Aries" then some "♈" else if sign = "Taurus" then some "♉"
  else if sign = "Gemini" then some "♊" else if sign = "Cancer" then some "♋"
  else if sign = "Leo" then some "♌" else if sign = "Virgo" then some "♍"
  else if sign = "Libra" then some "♎" else if sign = "Scorpio" then some "♏"
  else if sign = "Sagittarius" then some "♐" else if sign = "Capricorn" then some "♑"
  else if sign = "Aquarius" then some "♒" else if sign = "Pisces" then some "♓"
  else none

/-- A zodiac-sign sector boundary line (source lines 175-182). -/
structure SignLine : Type where
  deg : ℚ
  p1 : PolarPt
  p2 : PolarPt
deriving DecidableEq, Repr

/-- A zodiac-sign label anchor (source lines 184-191). -/
structure SignLabel : Type where
  sign : String
  glyph : Option String
  pos : PolarPt
deriving DecidableEq, Repr

/-- The ascendant emphasis line (source lines 200-209). -/
structure AscLine : Type where
  deg : ℚ
  p1 : PolarPt
  p2 : PolarPt
  labelP : PolarPt
deriving DecidableEq, Repr

/-- Source lines 175-182: the 12 sector boundaries at
`wrap360(i*30 + rot)` from `R_SIGN_IN` to `R_OUT`. -/
def signLines (c : Chart) : List SignLine :=
  (List.range 12).map (fun i =>
    { deg := wrap360 ((i : ℚ) * 30 + rot c)
      p1 := ⟨R_SIGN_IN, wrap360 ((i : ℚ) * 30 + rot c)⟩
      p2 := ⟨R_OUT, wrap360 ((i : ℚ) * 30 + rot c)⟩ })

/-- Source lines 184-191: the 12 sign labels at the sector midpoints,
at the mean of the two ring radii. -/
def signLabels (c : Chart) : List SignLabel :=
  (List.range 12).map (fun i =>
    { sign := SIGNS.getD i ""
      glyph := signGlyphTable (SIGNS.getD i "")
      pos := ⟨(R_OUT + R_SIGN_IN) / 2, wrap360 ((i : ℚ) * 30 + 15 + rot c)⟩ })

/-- Source lines 200-209. -/
def ascLine (c : Chart) : Option AscLine :=
  match ascDeg c with
  | none => none
  | some a =>
    some { deg := wrap360 (a + rot c)
           p1 := ⟨R_CENTER - 6, wrap360 (a + rot c)⟩
           p2 := ⟨R_OUT, wrap360 (a + rot c)⟩
           labelP := ⟨R_OUT + 16, wrap360 (a + rot c)⟩ }

/-- JS truthiness of an optional scalar value. -/
def jsTruthy : Option JVal → Bool
  | none => false
  | some JVal.jnull => false
  | some (JVal.num q) => q ≠ 0
  | some (JVal.str s) => s ≠ ""
  | some (JVal.boolean b) => b

/-- JS `String(v)` on the modelled scalars.  (The exact JS decimal
rendering of numbers is abstracted by the rational's canonical rendering —
any fixed injective rendering gives the same equalities of scenes.) -/
def jsToString : JVal → String
  | JVal.num q => toString q
  | JVal.str s => s
  | JVal.boolean b => if b then "true" else "false"
  | JVal.jnull => "null"

/-- Source line 110: `chart?.name ? String(chart.name) : ""`. -/
def titleName (c : Chart) : String :=
  match c.nameField with
  | some v => if jsTruthy (some v) then jsToString v else ""
  | none => ""

/-- The fully positioned scene the component derives from one chart record:
every computed collection of primitives together with the rotation, in the
order the source lays them out. -/
structure LayoutScene : Type where
  rot : ℚ
  ascDeg : Option ℚ
  signLines : List SignLine
  signLabels : List SignLabel
  houseLines : List HouseLine
  ascLine : Option AscLine
  planetPoints : List PPoint
  aspectLines : List ALine
  titleName : String
deriving DecidableEq, Repr

/-- The whole engine: every derived piece of the render, bundled. -/
def layoutScene (c : Chart) : LayoutScene :=
  { rot := rot c
    ascDeg := ascDeg c
    signLines := signLines c
    signLabels := signLabels c
    houseLines := houseLines c
    ascLine := ascLine c
    planetPoints := planetPoints c
    aspectLines := aspectLines c
    titleName := titleName c }

/-- The secondary-list duplicate of the `C7chart` relationship. -/
def C7rowDup : AspectRow :=
  { p1 := "Moon", p2 := "Sun", aspect := "trine", orb := some (JVal.num 3) }

/-! ## Theorems -/

section WrapLemmas

variable {α : Type} [LinearOrderedField α] [FloorRing α]

theorem jsMod_lt_of_pos (d : α) {m : α} (hm : 0 < m) : jsMod d m < m := by
  unfold jsMod jsTrunc
  split
  · rename_i h
    have := Int.le_ceil (d / m)
    have h2 : d / m ≤ ((⌈d / m⌉ : ℤ) : α) := this
    nlinarith [mul_le_mul_of_nonneg_left h2 hm.le, mul_div_cancel₀ d hm.ne.symm]
  · have h2 : d / m < (⌊d / m⌋ : α) + 1 := Int.lt_floor_add_one (d / m)
    nlinarith [mul_lt_mul_of_pos_left h2 hm, mul_div_cancel₀ d hm.ne.symm]

theorem neg_lt_jsMod (d : α) {m : α} (hm : 0 < m) : -m < jsMod d m := by
  unfold jsMod jsTrunc
  split
  · rename_i h
    have h2 : ((⌈d / m⌉ : ℤ) : α) < d / m + 1 := Int.ceil_lt_add_one (d / m)
    nlinarith [mul_lt_mul_of_pos_left h2 hm, mul_div_cancel₀ d hm.ne.symm]
  · rename_i h
    push_neg at h
    have h2 : ((⌊d / m⌋ : ℤ) : α) ≤ d / m := Int.floor_le (d / m)
    have h3 : (0 : α) ≤ d / m := by positivity
    nlinarith [mul_le_mul_of_nonneg_left h2 hm.le, mul_div_cancel₀ d hm.ne.symm,
      Int.floor_nonneg.mpr h3]

theorem jsMod_nonneg_of_nonneg {d : α} (hd : 0 ≤ d) {m : α} (hm : 0 < m) :
    0 ≤ jsMod d m := by
  unfold jsMod jsTrunc
  have hq : ¬ d / m < 0 := by
    push_neg
    positivity
  rw [if_neg hq]
  have h2 : ((⌊d / m⌋ : ℤ) : α) ≤ d / m := Int.floor_le (d / m)
  nlinarith [mul_le_mul_of_nonneg_left h2 hm.le, mul_div_cancel₀ d hm.ne.symm]

theorem wrap360_nonneg (d : α) : 0 ≤ wrap360 d := by
  unfold wrap360
  split
  · rename_i h
    have := neg_lt_jsMod d (show (0:α) < 360 by norm_num)
    linarith
  · rename_i h
    push_neg at h
    exact h

theorem wrap360_lt (d : α) : wrap360 d < 360 := by
  unfold wrap360
  split
  · rename_i h
    linarith
  · exact jsMod_lt_of_pos d (by norm_num)

/-- `wrap360 d` differs from `d` by an integer multiple of 360. -/
theorem wrap360_sub_int_mul (d : α) : ∃ k : ℤ, wrap360 d - d = 360 * (k : α) := by
  unfold wrap360 jsMod
  set t : ℤ := jsTrunc (d / 360) with ht
  split
  · exact ⟨1 - t, by push_cast; ring⟩
  · exact ⟨-t, by push_cast; ring⟩

/-- Two inputs congruent modulo 360 wrap to the same value. -/
theorem wrap360_congr {a b : α} (h : ∃ k : ℤ, a - b = 360 * (k : α)) :
    wrap360 a = wrap360 b := by
  obtain ⟨k, hk⟩ := h
  obtain ⟨ka, hka⟩ := wrap360_sub_int_mul a
  obtain ⟨kb, hkb⟩ := wrap360_sub_int_mul b
  have hsum : wrap360 a - wrap360 b = 360 * ((ka + k - kb : ℤ) : α) := by
    push_cast
    have : wrap360 a - wrap360 b = (wrap360 a - a) + (a - b) - (wrap360 b - b) := by ring
    rw [this, hka, hkb, hk]
    ring
  set K : ℤ := ka + k - kb with hK
  have h1 : wrap360 a < 360 := wrap360_lt a
  have h2 : 0 ≤ wrap360 a := wrap360_nonneg a
  have h3 : wrap360 b < 360 := wrap360_lt b
  have h4 : 0 ≤ wrap360 b := wrap360_nonneg b
  have hlt : (360 : α) * (K : α) < 360 * 1 := by rw [← hsum]; linarith
  have hgt : (360 : α) * (-1 : ℤ) < 360 * (K : α) := by
    push_cast
    rw [← hsum]
    linarith
  have hKlt : (K : α) < 1 := by linarith [lt_of_mul_lt_mul_left hlt (by norm_num : (0:α) ≤ 360)]
  have hKgt : (-1 : α) < (K : α) := by
    have := lt_of_mul_lt_mul_left hgt (by norm_num : (0:α) ≤ 360)
    push_cast at this
    linarith
  have hK0 : K = 0 := by
    have l1 : K < 1 := by exact_mod_cast hKlt
    have l2 : -1 < K := by exact_mod_cast hKgt
    omega
  have : wrap360 a - wrap360 b = 0 := by
    rw [hsum, hK0]
    push_cast
    ring
  linarith

/-- On values already in `[0, 360)`, `wrap360` is the identity. -/
theorem wrap360_eq_self {d : α} (h0 : 0 ≤ d) (h1 : d < 360) : wrap360 d = d := by
  unfold wrap360 jsMod jsTrunc
  have hq0 : (0 : α) ≤ d / 360 := by positivity
  have hq1 : d / 360 < 1 := by
    rw [div_lt_one (by norm_num : (0:α) < 360)]
    exact h1
  have hfl : ⌊d / 360⌋ = 0 := by
    rw [Int.floor_eq_zero_iff]
    exact Set.mem_Ico.mpr ⟨hq0, hq1⟩
  have hnneg : ¬ d / 360 < 0 := by push_neg; exact hq0
  rw [if_neg hnneg, hfl]
  push_cast
  simp [h0, not_lt.mpr h0]

end WrapLemmas

/-- **C8.** For every real number `L`, `wrap360 L` lies in the half-open
interval `[0, 360)` and is congruent to `L` modulo 360 (their difference is
an integer multiple of 360). -/
theorem wrap360_invariant (L : ℝ) :
    0 ≤ wrap360 L ∧ wrap360 L < 360 ∧ ∃ k : ℤ, wrap360 L - L = 360 * (k : ℝ) :=
  ⟨wrap360_nonneg L, wrap360_lt L, wrap360_sub_int_mul L⟩

/-- **C4.** For every chart whose selected raw ascendant field holds a
numeric value `A`, adding the computed rotation to `A` and wrapping yields
exactly the canonical ascendant screen angle 270. -/
theorem rotation_consistency (c : Chart) (A : ℚ) (h : ascRaw c = some (JVal.num A)) :
    wrap360 (rot c + A) = 270 := by
  have hdeg : ascDeg c = some (wrap360 A) := by
    unfold ascDeg
    rw [h]
  have hrot : rot c = wrap360 (270 - wrap360 A) := by
    unfold rot
    rw [hdeg]
  obtain ⟨k1, hk1⟩ := wrap360_sub_int_mul (α := ℚ) (270 - wrap360 A)
  obtain ⟨k2, hk2⟩ := wrap360_sub_int_mul (α := ℚ) A
  have hcongr : wrap360 (rot c + A) = wrap360 (270 : ℚ) := by
    apply wrap360_congr
    refine ⟨k1 - k2, ?_⟩
    rw [hrot]
    push_cast
    have e1 : wrap360 (270 - wrap360 A) = (270 - wrap360 A) + 360 * (k1 : ℚ) := by
      linarith
    have e2 : wrap360 A = A + 360 * (k2 : ℚ) := by linarith
    rw [e1, e2]
    ring
  rw [hcongr]
  exact wrap360_eq_self (by norm_num) (by norm_num)

theorem rotation_consistency_witness :
    wrap360 ((rot C4chart) + 100) = 270 :=
  rotation_consistency C4chart 100 (by rfl)

/-- **C2, counterexample.** On `C2chart` the higher-priority field
`houses.ascendant` holds a defined non-numeric value and the lower-priority
`points.Asc.lon` holds 100, yet the code yields no ascendant at all — the
numeric lower-priority value does **not** win as the claim states (the
spec-following first-numeric lookup would give 100). -/
theorem asc_extraction_counterexample :
    ascDeg C2chart = none ∧ ascDegSpecFirstNumeric C2chart = some 100 := by
  constructor
  · rfl
  · show some (wrap360 (100 : ℚ)) = some 100
    rw [wrap360_eq_self (by norm_num) (by norm_num)]

/-- **C2, amended.** The candidate fields are tried in priority order, but
what wins is the first **defined (non-nullish)** value, not the first
numeric one: if that value is numeric it is wrapped and used, and if it is
non-numeric the ascendant is absent (`none`), regardless of any numeric
value in a lower-priority field. -/
theorem asc_first_defined_wins (c : Chart) :
    (isNullish c.houses_ascendant = false → ascDeg c = wrapIfNumber c.houses_ascendant) ∧
    (isNullish c.houses_ascendant = true → isNullish (pointLon c "Asc") = false →
      ascDeg c = wrapIfNumber (pointLon c "Asc")) ∧
    (isNullish c.houses_ascendant = true → isNullish (pointLon c "Asc") = true →
      ascDeg c = wrapIfNumber (pointLon c "ASC")) := by
  refine ⟨?_, ?_, ?_⟩
  · intro h1
    unfold ascDeg ascRaw jsCoalesce
    rw [h1]
    simp only [Bool.false_eq_true, if_false]
    cases hv : c.houses_ascendant with
    | none => rfl
    | some v => cases v <;> simp [wrapIfNumber]
  · intro h1 h2
    unfold ascDeg ascRaw jsCoalesce
    rw [h1, h2]
    simp only [if_true, Bool.false_eq_true, if_false]
    cases hv : pointLon c "Asc" with
    | none => rfl
    | some v => cases v <;> simp [wrapIfNumber]
  · intro h1 h2
    unfold ascDeg ascRaw jsCoalesce
    rw [h1, h2]
    simp only [if_true]
    cases hv : pointLon c "ASC" with
    | none => simp [isNullish, wrapIfNumber]
    | some v => cases v <;> simp [isNullish, wrapIfNumber]

theorem asc_first_defined_wins_witness :
    ascDeg C2wchart = wrapIfNumber (pointLon C2wchart "Asc") :=
  (asc_first_defined_wins C2wchart).2.1 (by rfl) (by rfl)

/-- **C3, counterexample.** `C3chart` supplies a house-cusps array of
length 13 — different from 12 — yet the output contains 12 house lines, not
zero: the length-12 gate is applied to the array *after* numeric coercion
and filtering, and 12 of the 13 raw elements are numeric. -/
theorem house_gating_counterexample :
    C3chart.houses_cusps = some (CuspsVal.arr C3cuspsArr) ∧
    C3cuspsArr.length = 13 ∧
    (houseLines C3chart).length = 12 := by
  refine ⟨rfl, rfl, ?_⟩
  with_unfolding_all rfl

/-- **C3, amended.** House lines are gated on the *normalized* cusp list
(the raw array coerced with `Number` and filtered to finite values): when
that list has exactly 12 elements there are exactly 12 house lines, and for
any other normalized length there are zero house lines — never a partial
set.  (The raw array's length does not decide the gate; see the
counterexample.) -/
theorem house_gating (c : Chart) :
    (houseLines c).length = if (cusps c).length = 12 then 12 else 0 := by
  unfold houseLines
  by_cases h : (cusps c).length = 12
  · simp [h]
  · simp [h]

theorem planetPointsAux_radius (c : Chart) (names : List String)
    (placed k : ℕ) (p : PPoint)
    (h : (planetPointsAux c names placed)[k]? = some p) :
    p.r = R_PLANET - (((placed + k) % 3 : ℕ) : ℚ) * 12 := by
  induction names generalizing placed k with
  | nil => simp [planetPointsAux] at h
  | cons name rest ih =>
    rw [planetPointsAux] at h
    split at h
    · exact ih placed k h
    · split at h
      · exact ih placed k h
      · split at h
        · cases k with
          | zero =>
            rw [List.getElem?_cons_zero] at h
            cases h
            simp
          | succ k' =>
            rw [List.getElem?_cons_succ] at h
            have hr := ih (placed + 1) k' h
            have hmod : (placed + 1 + k') % 3 = (placed + (k' + 1)) % 3 := by omega
            rw [hr, hmod]
        · exact ih placed k h

/-- **C5.** For every chart: the `k`-th placed body (0-indexed over placed
bodies, independent of skipped entries) sits at radius
`R_PLANET - (k mod 3) * ringStep` with ringStep 12; in particular a chart
placing exactly 4 bodies yields the radius pattern
`[R, R - step, R - 2*step, R]`. -/
theorem collision_cycling (c : Chart) :
    (∀ k p, (planetPoints c)[k]? = some p →
      p.r = R_PLANET - ((k % 3 : ℕ) : ℚ) * 12) ∧
    ((planetPoints c).length = 4 →
      (planetPoints c).map PPoint.r =
        [R_PLANET, R_PLANET - 12, R_PLANET - 2 * 12, R_PLANET]) := by
  have hgen : ∀ k p, (planetPoints c)[k]? = some p →
      p.r = R_PLANET - ((k % 3 : ℕ) : ℚ) * 12 := by
    intro k p h
    simpa using planetPointsAux_radius c BODY_ORDER 0 k p h
  refine ⟨hgen, ?_⟩
  intro hlen
  apply List.ext_getElem (by simp [hlen])
  intro i h1 h2
  simp only [List.getElem_map]
  have hi : i < 4 := by simpa [hlen] using h2
  have hq : (planetPoints c)[i]? = some ((planetPoints c)[i]) :=
    List.getElem?_eq_getElem (by omega)
  have hr := hgen i _ hq
  interval_cases i <;> simpa using hr

theorem collision_cycling_witness :
    C5p3.r = R_PLANET - ((3 % 3 : ℕ) : ℚ) * 12 ∧
    (planetPoints C5chart).map PPoint.r =
      [R_PLANET, R_PLANET - 12, R_PLANET - 2 * 12, R_PLANET] :=
  ⟨(collision_cycling C5chart).1 3 C5p3 (by with_unfolding_all rfl),
   (collision_cycling C5chart).2 (by with_unfolding_all rfl)⟩

/-- **C6.** The orb filter keeps an aspect entry iff its orb is at most
`maxOrb` (6.0): at any loop state (any placed points, rotation, remaining
rows, seen keys and output so far), an entry with well-formed fields whose
orb exceeds 6 is skipped outright, while an entry with orb ≤ 6 passes the
orb filter and — provided it is not a duplicate and both endpoints
resolve — is emitted (subject only to the line cap). -/
theorem orb_filter (pts : List PPoint) (rotq : ℚ) (a : AspectRow)
    (rest : List AspectRow) (seen : List String) (out : List ALine)
    (ht : ¬ (a.p1 = "" ∨ a.p2 = "" ∨ a.aspect = "")) :
    (maxOrb < orbOf a →
      aspAux pts rotq (a :: rest) seen out = aspAux pts rotq rest seen out) ∧
    (orbOf a ≤ maxOrb → keyOf a ∉ seen →
      ∀ q1 q2, pointByName pts a.p1 = some q1 → pointByName pts a.p2 = some q2 →
        aspAux pts rotq (a :: rest) seen out =
          (if maxLines ≤ (out ++ [mkALine a q1 q2 rotq]).length
           then out ++ [mkALine a q1 q2 rotq]
           else aspAux pts rotq rest (keyOf a :: seen)
             (out ++ [mkALine a q1 q2 rotq]))) := by
  constructor
  · intro horb
    rw [aspAux, if_neg ht, if_pos horb]
  · intro horb hseen q1 q2 h1 h2
    rw [aspAux, if_neg ht, if_neg (not_lt.mpr horb), if_neg hseen, h1, h2]

theorem orb_filter_witness :
    (aspAux (planetPoints C5chart) 0 [C6rowHigh] [] [] =
      aspAux (planetPoints C5chart) 0 [] [] []) ∧
    (aspAux (planetPoints C5chart) 0 [C6row] [] [] =
      (if maxLines ≤ (([] : List ALine) ++ [mkALine C6row C6sun C6moon 0]).length
       then ([] : List ALine) ++ [mkALine C6row C6sun C6moon 0]
       else aspAux (planetPoints C5chart) 0 [] (keyOf C6row :: [])
         (([] : List ALine) ++ [mkALine C6row C6sun C6moon 0]))) :=
  ⟨(orb_filter (planetPoints C5chart) 0 C6rowHigh [] [] [] (by decide)).1
      (by norm_num [C6rowHigh, orbOf, maxOrb]),
   (orb_filter (planetPoints C5chart) 0 C6row [] [] [] (by decide)).2
      (by norm_num [C6row, orbOf, maxOrb]) (by simp)
      C6sun C6moon (by with_unfolding_all rfl) (by with_unfolding_all rfl)⟩

theorem aspAux_keys_nodup (pts : List PPoint) (rotq : ℚ) (rows : List AspectRow) :
    ∀ (seen : List String) (out : List ALine),
      (out.map ALine.key).Nodup →
      (∀ k ∈ out.map ALine.key, k ∈ seen) →
      ((aspAux pts rotq rows seen out).map ALine.key).Nodup := by
  induction rows with
  | nil =>
    intro seen out h1 h2
    simpa [aspAux] using h1
  | cons a rest ih =>
    intro seen out h1 h2
    rw [aspAux]
    split
    · exact ih seen out h1 h2
    · split
      · exact ih seen out h1 h2
      · split
        · exact ih seen out h1 h2
        · rename_i hts horb hseen
          cases hq1 : pointByName pts a.p1 with
          | none =>
            simp only [hq1]
            exact ih (keyOf a :: seen) out h1
              (fun k hk => List.mem_cons_of_mem _ (h2 k hk))
          | some q1 =>
            cases hq2 : pointByName pts a.p2 with
            | none =>
              simp only [hq1, hq2]
              exact ih (keyOf a :: seen) out h1
                (fun k hk => List.mem_cons_of_mem _ (h2 k hk))
            | some q2 =>
              simp only [hq1, hq2]
              have hknotout : keyOf a ∉ out.map ALine.key :=
                fun hmem => hseen (h2 _ hmem)
              have h1' : ((out ++ [mkALine a q1 q2 rotq]).map ALine.key).Nodup := by
                rw [List.map_append]
                rw [List.nodup_append]
                refine ⟨h1, by simp [mkALine], ?_⟩
                intro k hk
                simp only [List.map_cons, List.map_nil, List.mem_singleton, mkALine]
                intro hkk
                exact hknotout (hkk ▸ hk)
              have h2' : ∀ k ∈ (out ++ [mkALine a q1 q2 rotq]).map ALine.key,
                  k ∈ keyOf a :: seen := by
                intro k hk
                rw [List.map_append, List.mem_append] at hk
                rcases hk with hk | hk
                · exact List.mem_cons_of_mem _ (h2 k hk)
                · simp only [List.map_cons, List.map_nil, List.mem_singleton, mkALine] at hk
                  simp [hk]
              split
              · exact h1'
              · exact ih (keyOf a :: seen) (out ++ [mkALine a q1 q2 rotq]) h1' h2'

/-- **C7.** Aspect deduplication: across the concatenated primary and
secondary lists, at most one chord is emitted per canonical key (the two
names sorted lexicographically, joined, with the aspect type appended) — the
emitted chords' keys are pairwise distinct for every chart; and on the
concrete two-list example (`{Sun, Moon, trine}` primary plus
`{Moon, Sun, trine}` secondary) exactly one chord, with the canonical key,
is emitted. -/
theorem aspect_dedup :
    (∀ c : Chart, ((aspectLines c).map ALine.key).Nodup) ∧
    (∀ (pts : List PPoint) (rotq : ℚ) (a : AspectRow) (rest : List AspectRow)
        (seen : List String) (out : List ALine),
      ¬ (a.p1 = "" ∨ a.p2 = "" ∨ a.aspect = "") → orbOf a ≤ maxOrb →
      keyOf a ∈ seen →
      aspAux pts rotq (a :: rest) seen out = aspAux pts rotq rest seen out) ∧
    (aspectLines C7chart).map ALine.key = ["Moon|Sun|trine"] := by
  refine ⟨?_, ?_, ?_⟩
  · intro c
    exact aspAux_keys_nodup (planetPoints c) (rot c) (mergedAspects c) [] []
      (by simp) (by simp)
  · intro pts rotq a rest seen out ht horb hseen
    rw [aspAux, if_neg ht, if_neg (not_lt.mpr horb), if_pos hseen]
  · with_unfolding_all rfl

theorem aspect_dedup_witness :
    aspAux (planetPoints C7chart) 0 [C7rowDup] ["Moon|Sun|trine"] [] =
      aspAux (planetPoints C7chart) 0 [] ["Moon|Sun|trine"] [] :=
  aspect_dedup.2.1 (planetPoints C7chart) 0 C7rowDup [] ["Moon|Sun|trine"] []
    (by decide) (by norm_num [C7rowDup, orbOf, maxOrb])
    (by
      have h : keyOf C7rowDup = "Moon|Sun|trine" := by with_unfolding_all rfl
      rw [h]
      simp)

/-! ## Endpoint resolution invariants (for C10 and C1) -/

theorem pointByName_mem {pts : List PPoint} {n : String} {p : PPoint}
    (h : pointByName pts n = some p) : p ∈ pts ∧ p.name = n := by
  unfold pointByName at h
  cases hf : pts.find? (fun p => p.name = n) with
  | none => rw [hf] at h; exact absurd h (by simp)
  | some q =>
    rw [hf] at h
    simp only [Option.map_some, Option.some.injEq] at h
    subst h
    refine ⟨List.mem_of_find?_eq_some hf, ?_⟩
    have := List.find?_some hf
    simpa using this

theorem planetPointsAux_name_mem (c : Chart) (names : List String) (placed : ℕ) :
    ∀ p ∈ planetPointsAux c names placed, p.name ∈ names := by
  induction names generalizing placed with
  | nil => simp [planetPointsAux]
  | cons name rest ih =>
    intro p hp
    rw [planetPointsAux] at hp
    split at hp
    · exact List.mem_cons_of_mem _ (ih placed p hp)
    · split at hp
      · exact List.mem_cons_of_mem _ (ih placed p hp)
      · split at hp
        · rcases List.mem_cons.mp hp with h | h
          · subst h; exact List.mem_cons_self _ _
          · exact List.mem_cons_of_mem _ (ih (placed + 1) p h)
        · exact List.mem_cons_of_mem _ (ih placed p hp)

theorem planetPointsAux_deg (c : Chart) (names : List String) (placed : ℕ) :
    ∀ p ∈ planetPointsAux c names placed, p.deg = wrap360 (p.lon + rot c) := by
  induction names generalizing placed with
  | nil => simp [planetPointsAux]
  | cons name rest ih =>
    intro p hp
    rw [planetPointsAux] at hp
    split at hp
    · exact ih placed p hp
    · split at hp
      · exact ih placed p hp
      · split at hp
        · rcases List.mem_cons.mp hp with h | h
          · subst h; rfl
          · exact ih (placed + 1) p h
        · exact ih placed p hp

theorem aspAux_resolved (pts : List PPoint) (rotq : ℚ) (rows : List AspectRow) :
    ∀ (seen : List String) (out : List ALine),
      (∀ al ∈ out, Resolved pts rotq al) →
      ∀ al ∈ aspAux pts rotq rows seen out, Resolved pts rotq al := by
  induction rows with
  | nil =>
    intro seen out hout
    simpa [aspAux] using hout
  | cons a rest ih =>
    intro seen out hout al hal
    rw [aspAux] at hal
    split at hal
    · exact ih seen out hout al hal
    · split at hal
      · exact ih seen out hout al hal
      · split at hal
        · exact ih seen out hout al hal
        · rename_i hts horb hseen
          cases hq1 : pointByName pts a.p1 with
          | none =>
            simp only [hq1] at hal
            exact ih (keyOf a :: seen) out hout al hal
          | some q1 =>
            cases hq2 : pointByName pts a.p2 with
            | none =>
              simp only [hq1, hq2] at hal
              exact ih (keyOf a :: seen) out hout al hal
            | some q2 =>
              simp only [hq1, hq2] at hal
              have hout' : ∀ al ∈ out ++ [mkALine a q1 q2 rotq],
                  Resolved pts rotq al := by
                intro al2 hal2
                rcases List.mem_append.mp hal2 with h | h
                · exact hout al2 h
                · rcases List.mem_singleton.mp h with h
                  subst h
                  exact ⟨by simp [mkALine, hq1], by simp [mkALine, hq2]⟩
              split at hal
              · exact hout' al hal
              · exact ih (keyOf a :: seen) (out ++ [mkALine a q1 q2 rotq]) hout' al hal

/-- **C10.** Glyph anchors are produced only for the 19 names of
`BODY_ORDER` (a body under any other name never yields an anchor, whatever
its longitude or visibility), and every emitted chord's two names are names
of placed bodies — hence also members of `BODY_ORDER`; an aspect
referencing an unlisted name can therefore never produce a chord. -/
theorem unknown_bodies_never_drawn (c : Chart) :
    (∀ p ∈ planetPoints c, p.name ∈ BODY_ORDER) ∧
    (∀ al ∈ aspectLines c,
      al.p1 ∈ (planetPoints c).map PPoint.name ∧
      al.p2 ∈ (planetPoints c).map PPoint.name ∧
      al.p1 ∈ BODY_ORDER ∧ al.p2 ∈ BODY_ORDER) := by
  have hnames : ∀ p ∈ planetPoints c, p.name ∈ BODY_ORDER :=
    planetPointsAux_name_mem c BODY_ORDER 0
  refine ⟨hnames, ?_⟩
  intro al hal
  have hres := aspAux_resolved (planetPoints c) (rot c) (mergedAspects c) [] []
    (by simp) al hal
  obtain ⟨h1, h2⟩ := hres
  cases hq1 : pointByName (planetPoints c) al.p1 with
  | none => rw [hq1] at h1; exact absurd h1 (by simp)
  | some p =>
    cases hq2 : pointByName (planetPoints c) al.p2 with
    | none => rw [hq2] at h2; exact absurd h2 (by simp)
    | some q =>
      obtain ⟨hpmem, hpname⟩ := pointByName_mem hq1
      obtain ⟨hqmem, hqname⟩ := pointByName_mem hq2
      refine ⟨?_, ?_, ?_, ?_⟩
      · exact hpname ▸ List.mem_map_of_mem PPoint.name hpmem
      · exact hqname ▸ List.mem_map_of_mem PPoint.name hqmem
      · exact hpname ▸ hnames p hpmem
      · exact hqname ▸ hnames q hqmem

theorem unknown_bodies_witness :
    C6sun.name ∈ BODY_ORDER ∧
    (C7line.p1 ∈ (planetPoints C7chart).map PPoint.name ∧
     C7line.p2 ∈ (planetPoints C7chart).map PPoint.name ∧
     C7line.p1 ∈ BODY_ORDER ∧ C7line.p2 ∈ BODY_ORDER) :=
  ⟨(unknown_bodies_never_drawn C5chart).1 C6sun (by
      have h : planetPoints C5chart = [C6sun, C6moon, C5merc, C5p3] := by
        with_unfolding_all rfl
      rw [h]
      simp),
   (unknown_bodies_never_drawn C7chart).2 C7line (by
      have h : aspectLines C7chart = [C7line] := by
        with_unfolding_all rfl
      rw [h]
      simp)⟩

/-- Two polar points with the same angle but distinct positive radii have
distinct Cartesian images. -/
theorem polarXY_ne_of_radius_lt {r1 r2 : ℚ} (h12 : r1 < r2)
    (deg : ℚ) : polarXY r1 deg ≠ polarXY r2 deg := by
  intro h
  have hx := congrArg Prod.fst h
  have hy := congrArg Prod.snd h
  simp only [polarXY] at hx hy
  set a := astroDegToSvgRad deg with ha
  have e1 : (r1 : ℝ) * Real.cos a = (r2 : ℝ) * Real.cos a := by linarith
  have e2 : (r1 : ℝ) * Real.sin a = (r2 : ℝ) * Real.sin a := by linarith
  have hc : ((r1 : ℝ) - r2) * Real.cos a = 0 := by linear_combination e1
  have hs : ((r1 : ℝ) - r2) * Real.sin a = 0 := by linear_combination e2
  have hpyth := Real.sin_sq_add_cos_sq a
  have hsq : ((r1 : ℝ) - r2) ^ 2 = 0 := by
    calc ((r1 : ℝ) - r2) ^ 2
        = ((r1 : ℝ) - r2) ^ 2 * (Real.sin a ^ 2 + Real.cos a ^ 2) := by
          rw [hpyth]; ring
      _ = (((r1 : ℝ) - r2) * Real.sin a) ^ 2 +
          (((r1 : ℝ) - r2) * Real.cos a) ^ 2 := by ring
      _ = 0 := by rw [hc, hs]; ring
  have hlt : (r1 : ℝ) < (r2 : ℝ) := by exact_mod_cast h12
  nlinarith [hsq, hlt]

/-- **C1, amended.** Every emitted chord's draw angles are exactly the draw
angles of the two named bodies' placed glyph anchors, but its Cartesian
endpoints sit at the fixed reduced radius `R_ASPECT_DRAW`
(`min(R_ASPECT, R_CENTER - 10) = 115`), strictly inside the center circle —
not at the glyph anchors themselves (which sit at the planet-ring radii). -/
theorem aspect_chord_endpoints (c : Chart) (al : ALine)
    (hal : al ∈ aspectLines c) :
    (pointByName (planetPoints c) al.p1).map PPoint.deg = some al.d1 ∧
    (pointByName (planetPoints c) al.p2).map PPoint.deg = some al.d2 ∧
    ALine.xy1 al = polarXY R_ASPECT_DRAW al.d1 ∧
    ALine.xy2 al = polarXY R_ASPECT_DRAW al.d2 := by
  have hres := aspAux_resolved (planetPoints c) (rot c) (mergedAspects c) [] []
    (by simp) al hal
  obtain ⟨h1, h2⟩ := hres
  refine ⟨?_, ?_, rfl, rfl⟩
  · cases hq1 : pointByName (planetPoints c) al.p1 with
    | none => rw [hq1] at h1; exact absurd h1 (by simp)
    | some p =>
      rw [hq1] at h1
      simp only [Option.map_some'] at h1 ⊢
      simp only [Option.some.injEq] at h1 ⊢
      obtain ⟨hpmem, _⟩ := pointByName_mem hq1
      rw [planetPointsAux_deg c BODY_ORDER 0 p hpmem]
      exact h1
  · cases hq2 : pointByName (planetPoints c) al.p2 with
    | none => rw [hq2] at h2; exact absurd h2 (by simp)
    | some q =>
      rw [hq2] at h2
      simp only [Option.map_some'] at h2 ⊢
      simp only [Option.some.injEq] at h2 ⊢
      obtain ⟨hqmem, _⟩ := pointByName_mem hq2
      rw [planetPointsAux_deg c BODY_ORDER 0 q hqmem]
      exact h2

theorem aspect_chord_endpoints_witness :
    (pointByName (planetPoints C7chart) C7line.p1).map PPoint.deg =
      some C7line.d1 ∧
    (pointByName (planetPoints C7chart) C7line.p2).map PPoint.deg =
      some C7line.d2 ∧
    ALine.xy1 C7line = polarXY R_ASPECT_DRAW C7line.d1 ∧
    ALine.xy2 C7line = polarXY R_ASPECT_DRAW C7line.d2 :=
  aspect_chord_endpoints C7chart C7line (by
    have h : aspectLines C7chart = [C7line] := by with_unfolding_all rfl
    rw [h]
    simp)

/-- **C1, counterexample.** On `C1chart` the one surviving aspect names the
Sun, whose glyph anchor is `polarXY 245 10` (planet ring radius), but the
chord's first endpoint is `polarXY R_ASPECT_DRAW 10` (radius 115): the
chord's endpoint coordinates are *not* the glyph anchors' coordinates. -/
theorem aspect_chord_counterexample :
    aspectLines C1chart = [C1line] ∧
    pointByName (planetPoints C1chart) C1line.p1 = some C6sun ∧
    ALine.xy1 C1line ≠ PPoint.xy C6sun := by
  refine ⟨by with_unfolding_all rfl, by with_unfolding_all rfl, ?_⟩
  show polarXY R_ASPECT_DRAW C1line.d1 ≠ polarXY C6sun.r C6sun.deg
  have hdeg : C1line.d1 = C6sun.deg := rfl
  rw [hdeg]
  exact polarXY_ne_of_radius_lt
    (by norm_num [R_ASPECT_DRAW, R_ASPECT, R_CENTER, C6sun, min_def]) _

/-- **C9.** The layout computation is deterministic: the engine is a pure
function of the chart record, so two invocations on equal inputs (under the
fixed layout configuration embedded in the definitions) produce equal
`LayoutScene` outputs — the same primitives with the same coordinates,
styles and order. -/
theorem engine_deterministic (c1 c2 : Chart) (h : c1 = c2) :
    layoutScene c1 = layoutScene c2 :=
  congrArg layoutScene h

theorem engine_deterministic_witness :
    layoutScene C1chart = layoutScene C1chart :=
  engine_deterministic C1chart C1chart rfl

end ChartWheel

